import Mathlib

/-!
Verification of the request-admission pipeline of the workout-api repository:
API-key validation, tiered rate limiting and the cache layer.

The definitions below are a shallow embedding of the TypeScript source:
  * `src/lib/services/rateLimit.service.ts`  (`RateLimitService`)
  * `src/lib/services/cache.service.ts`      (`CacheService`)
  * `apiKey.service.ts`                      (`ApiKeyService`, cache-accelerated variant)

Conventions of the embedding:
  * timestamps are `Int` milliseconds since the Unix epoch (JS `Date.getTime()`);
  * the Supabase/Postgrest client never rejects a promise: every query resolves
    to a `{data, error}` pair, so a failing backing store surfaces as `data = null`
    (modelled as `none` / an empty match set) and the service-level `catch`
    blocks are unreachable; a `down : Bool` flag models "the backing store errors";
  * `.maybeSingle()` / `.single()` yield `some row` exactly when the filtered
    result set is a singleton, and a null/absent `data` otherwise;
  * bcrypt is external; it is passed in as an abstract compare/hash function;
  * `crypto.randomBytes` is external; the produced hex string is an explicit
    argument of `generateKey`.
-/

/-- `.maybeSingle()` / `.single()` of the Supabase client: the query data is the
row when the filtered set is a singleton, and null (`none`) otherwise
(zero rows, or a multiple-rows error). -/
def maybeSingle {α : Type} : List α → Option α
  | [a] => some a
  | _ => none

/-- JS `string.substring(0, n)` on a Lean `String`. -/
def strTake (s : String) (n : Nat) : String := ⟨s.data.take n⟩

/-- JS `string.startsWith(p)`; a kernel-reducible equivalent of
`String.startsWith`. -/
def strStartsWith (s p : String) : Bool := s.data.take p.data.length == p.data

/-! ## Tier configuration (`src/lib/constants.ts`, `TIER_LIMITS`) -/

inductive Tier where
  | free
  | pro
  | enterprise
deriving DecidableEq, Repr

/-- `TierLimits` of `src/types`: `monthly = -1` is the "unlimited" sentinel. -/
structure TierLimits where
  perMinute : Nat
  monthly : Int
  maxApiKeys : Nat
deriving DecidableEq, Repr

/-- `TIER_LIMITS` of `src/lib/constants.ts`. -/
def TIER_LIMITS : Tier → TierLimits
  | .free => ⟨10, 1000, 1⟩
  | .pro => ⟨100, 50000, 3⟩
  | .enterprise => ⟨500, -1, 10⟩

/-! ## Rate limiter (`RateLimitService`, rateLimit.service.ts) -/

/-- A row of the `rate_limits` table. -/
structure RateLimitRow where
  id : Nat
  api_key_id : String
  limit_type : String
  window_start : Int
  request_count : Nat
deriving DecidableEq, Repr

/-- The `rate_limits` table plus the id sequence. -/
structure RLState where
  rows : List RateLimitRow
  nextId : Nat
deriving DecidableEq, Repr

/-- Result shape of `checkLimit` / `checkRateLimit`.  The TS objects have
optional fields; absent fields are `none`. -/
structure RLResult where
  allowed : Bool
  remaining : Int
  resetAt : Option Int
  limitType : Option String
  limit : Option Nat
deriving DecidableEq, Repr

/-- The filtered select of `checkLimit` (lines 60-66):
`eq api_key_id, eq limit_type, gte window_start (now - windowSeconds*1000)`. -/
def rlMatches (now : Int) (keyId lt : String) (windowSeconds : Nat) (rows : List RateLimitRow) :
    List RateLimitRow :=
  rows.filter fun r =>
    r.api_key_id == keyId && r.limit_type == lt &&
      decide (now - (windowSeconds : Int) * 1000 ≤ r.window_start)

/-- `RateLimitService.checkLimit` (rateLimit.service.ts lines 51-105).
`down = true` models an erroring backing store: the select resolves with
`data = null` and the insert/update writes are lost. -/
def checkLimit (down : Bool) (now : Int) (keyId lt : String) (maxRequests windowSeconds : Nat)
    (st : RLState) : RLResult × RLState :=
  let limitData := if down then none else maybeSingle (rlMatches now keyId lt windowSeconds st.rows)
  match limitData with
  | none =>
      -- lines 68-81: no row in the window: insert a fresh counter at 1, allow
      let st' := if down then st else
        { rows := st.rows ++ [⟨st.nextId, keyId, lt, now, 1⟩], nextId := st.nextId + 1 }
      ({ allowed := true, remaining := (maxRequests : Int) - 1,
         resetAt := some (now + (windowSeconds : Int) * 1000),
         limitType := none, limit := none }, st')
  | some r =>
      if r.request_count ≥ maxRequests then
        -- lines 83-88: deny; note: no write happens on this branch
        ({ allowed := false, remaining := 0,
           resetAt := some (r.window_start + (windowSeconds : Int) * 1000),
           limitType := some lt, limit := none }, st)
      else
        -- lines 90-104: increment the row, allow
        let st' := { st with rows := st.rows.map fun x =>
          if x.id == r.id then { x with request_count := x.request_count + 1 } else x }
        ({ allowed := true, remaining := (maxRequests : Int) - ((r.request_count : Int) + 1),
           resetAt := some (r.window_start + (windowSeconds : Int) * 1000),
           limitType := none, limit := none }, st')

/-- `RateLimitService.checkRateLimit` (rateLimit.service.ts lines 11-49),
generalised over the tier-limit record it reads from `TIER_LIMITS[tier]`. -/
def checkRateLimitWith (limits : TierLimits) (down : Bool) (now : Int) (keyId : String)
    (st : RLState) : RLResult × RLState :=
  let mres := checkLimit down now keyId "per_minute" limits.perMinute 60 st
  if !mres.1.allowed then mres
  else if limits.monthly ≠ -1 then
    let mores := checkLimit down now keyId "monthly" limits.monthly.toNat (30*24*60*60) mres.2
    if !mores.1.allowed then mores
    else ({ allowed := true, remaining := mres.1.remaining, resetAt := mres.1.resetAt,
            limitType := none, limit := some limits.perMinute }, mores.2)
  else ({ allowed := true, remaining := mres.1.remaining, resetAt := mres.1.resetAt,
          limitType := none, limit := some limits.perMinute }, mres.2)

/-- `RateLimitService.checkRateLimit` on an actual tier. -/
def checkRateLimit (tier : Tier) (down : Bool) (now : Int) (keyId : String) (st : RLState) :
    RLResult × RLState :=
  checkRateLimitWith (TIER_LIMITS tier) down now keyId st

/-- Sequential `checkRateLimit` calls at the given timestamps. -/
def runChecks (limits : TierLimits) (keyId : String) : List Int → RLState → List RLResult × RLState
  | [], st => ([], st)
  | t :: ts, st =>
      let r := checkRateLimitWith limits false t keyId st
      let rest := runChecks limits keyId ts r.2
      (r.1 :: rest.1, rest.2)

/-! ## Calendar helpers (spec side, for the monthly-window comparison)

Modelled from the spec: the spec anchors the monthly quota "to calendar-month
boundaries (from the 1st at 00:00 local/UTC to the same instant next month)"
with a denial `resetAt` "equal to the first instant of the next calendar
month".  No such computation exists in the source; these definitions render
the spec's words (proleptic Gregorian calendar, UTC) so they can be compared
with what `checkLimit` actually returns. -/

/-- Days since 1970-01-01 of a Gregorian date (Hinnant's `days_from_civil`). -/
def daysFromCivil (y m d : Int) : Int :=
  let y' := if m ≤ 2 then y - 1 else y
  let era := Int.tdiv (if 0 ≤ y' then y' else y' - 399) 400
  let yoe := y' - era * 400
  let mp := Int.emod (m + 9) 12
  let doy := Int.tdiv (153 * mp + 2) 5 + d - 1
  let doe := yoe * 365 + Int.tdiv yoe 4 - Int.tdiv yoe 100 + doy
  era * 146097 + doe - 719468

/-- Gregorian date `(y, m, d)` of a count of days since 1970-01-01
(Hinnant's `civil_from_days`). -/
def civilFromDays (z0 : Int) : Int × Int × Int :=
  let z := z0 + 719468
  let era := Int.tdiv (if 0 ≤ z then z else z - 146096) 146097
  let doe := z - era * 146097
  let yoe := Int.tdiv (doe - Int.tdiv doe 1460 + Int.tdiv doe 36524 - Int.tdiv doe 146096) 365
  let y := yoe + era * 400
  let doy := doe - (365 * yoe + Int.tdiv yoe 4 - Int.tdiv yoe 100)
  let mp := Int.tdiv (5 * doy + 2) 153
  let d := doy - Int.tdiv (153 * mp + 2) 5 + 1
  let m := if mp < 10 then mp + 3 else mp - 9
  (if m ≤ 2 then y + 1 else y, m, d)

/-- Modelled from the spec: "the first instant of the next calendar month"
(UTC) after the instant `t` (milliseconds since the epoch). -/
def firstInstantOfNextCalendarMonthMs (t : Int) : Int :=
  let c := civilFromDays (Int.fdiv t 86400000)
  let y := c.1
  let m := c.2.1
  let ym := if m = 12 then (y + 1, (1 : Int)) else (y, m + 1)
  daysFromCivil ym.1 ym.2 1 * 86400000


/-! ## Cache layer (`CacheService`, cache.service.ts)

Redis values are JSON; `CacheService.get` returns `null` both for a missing
key and for a stored JSON `null`, so the value domain `CVal` carries an
explicit `vnull`.  A `down : Bool` flag models an erroring Redis client: every
primitive catches the error and degrades (`get` to `null`, `set`/`del` to a
no-op), exactly as the `try`/`catch` blocks of the source do. -/

/-! ### Validation results (apiKey.service.ts, `ApiKeyValidationResult`) -/

inductive SubStatus where
  | active
  | past_due
  | canceled
  | incomplete
  | trialing
deriving DecidableEq, Repr

/-- `ApiKeyValidationResult`:
`{valid:true; keyId; userId; tier} | {valid:false; error}`. -/
inductive ApiKeyValidationResult where
  | ok (keyId userId : String) (tier : Tier)
  | err (msg : String)
deriving DecidableEq, Repr

/-- JSON values this system ever caches. -/
inductive CVal where
  | vnull
  | vres (r : ApiKeyValidationResult)
  | vstr (s : String)
  | vint (n : Int)
deriving DecidableEq, Repr

structure CacheEntry where
  key : String
  val : CVal
  expiresAt : Int
deriving DecidableEq, Repr

abbrev CacheState := List CacheEntry

/-- `CacheService.get` at instant `now`: the stored value while its TTL is
live, `null` otherwise (missing, expired, or an erroring store). -/
def cacheGet (down : Bool) (now : Int) (st : CacheState) (k : String) : CVal :=
  if down then .vnull else
    match st.find? (fun e => e.key == k && decide (now < e.expiresAt)) with
    | some e => e.val
    | none => .vnull

/-- `CacheService.set` with `ex: ttlSeconds`. -/
def cacheSet (down : Bool) (now : Int) (st : CacheState) (k : String) (v : CVal)
    (ttlSeconds : Nat) : CacheState :=
  if down then st else
    ⟨k, v, now + (ttlSeconds : Int) * 1000⟩ :: st.filter (fun e => !(e.key == k))

/-- `CacheService.del`. -/
def cacheDel (down : Bool) (st : CacheState) (k : String) : CacheState :=
  if down then st else st.filter (fun e => !(e.key == k))

/-- Output of `getOrSet`, instrumented with how many times the fetcher ran. -/
structure GetOrSetOut where
  data : CVal
  cached : Bool
  st : CacheState
  fetcherCalls : Nat
deriving DecidableEq, Repr

/-- `CacheService.getOrSet` (cache.service.ts lines 65-85).  The fetcher is a
pure value `fetched` (the data the supplier would produce); `fetcherCalls`
counts its invocations.  The TS guard is `cached !== null`. -/
def getOrSet (down : Bool) (now : Int) (st : CacheState) (k : String) (fetched : CVal)
    (ttlSeconds : Nat) : GetOrSetOut :=
  let c := cacheGet down now st k
  if c ≠ .vnull then ⟨c, true, st, 0⟩
  else ⟨fetched, false, cacheSet down now st k fetched ttlSeconds, 1⟩

/-! ## API-key service (`ApiKeyService`, cache-accelerated variant) -/

/-- The joined `subscriptions` row (`status`, `tier`; `current_period_end` is
selected by the source but never read, so it is omitted). -/
structure SubRow where
  status : SubStatus
  tier : Tier
deriving DecidableEq, Repr

/-- A row of the `api_keys` table. -/
structure ApiKeyRow where
  id : String
  user_id : String
  subscription_id : String
  key_hash : String
  key_pfx : String   -- the source column `key_prefix`
  name : String
  is_active : Bool
  expires_at : Option Int
  last_used_at : Option Int
deriving DecidableEq, Repr

/-- The relational store: `api_keys`, `subscriptions` (keyed by id) and the
id sequence for inserted keys. -/
structure Db where
  keys : List ApiKeyRow
  subs : List (String × SubRow)
  nextKeyNum : Nat
deriving DecidableEq, Repr

/-- The select of `validateKey`: `eq key_prefix pfx, eq is_active true,
.single()`. -/
def lookupActive (db : Db) (pfx : String) : Option ApiKeyRow :=
  maybeSingle (db.keys.filter fun r => r.key_pfx == pfx && r.is_active)

/-- `expires_at && new Date(expires_at) < new Date()` (validateKey line 241). -/
def isExpired (now : Int) (r : ApiKeyRow) : Bool :=
  match r.expires_at with
  | some e => decide (e < now)
  | none => false

/-- `ApiKeyService.updateLastUsed`. -/
def updateLastUsed (db : Db) (keyId : String) (now : Int) : Db :=
  { db with keys := db.keys.map fun r =>
      if r.id == keyId then { r with last_used_at := some now } else r }

/-- `CACHE_TTL.API_KEY` (cache.service.ts line 149): 5 minutes. -/
def CACHE_TTL_API_KEY : Nat := 5 * 60

/-- `ApiKeyService.validateKey` (cache-accelerated variant, lines 195-283).
`bc plain hash` is `bcrypt.compare(plain, hash)`.  The output is
`(result, db, cache, dbQueried)` where the final flag records whether
execution reached the `api_keys` select. -/
def validateKey (bc : String → String → Bool) (down : Bool) (now : Int) (db : Db)
    (cache : CacheState) (apiKey : String) :
    ApiKeyValidationResult × Db × CacheState × Bool :=
  if apiKey = "" ∨ ¬ strStartsWith apiKey "wa_" then
    (.err "Invalid API key format", db, cache, false)
  else
    let pfx := strTake apiKey 12
    let cacheKey := "apikey:" ++ pfx
    match cacheGet down now cache cacheKey with
    | .vres (.ok kid uid tr) =>
        -- cached valid hit: background last-used refresh, return immediately
        (.ok kid uid tr, updateLastUsed db kid now, cache, false)
    | _ =>
      match lookupActive db pfx with
      | none => (.err "API key not found", db, cache, true)
      | some row =>
        if isExpired now row then
          (.err "API key expired", db, cache, true)
        else if ¬ bc apiKey row.key_hash then
          (.err "Invalid API key", db, cache, true)
        else
          match db.subs.lookup row.subscription_id with
          | none => (.err "No subscription found", db, cache, true)
          | some sub =>
            if sub.status ≠ .active ∧ sub.status ≠ .trialing then
              (.err "Subscription inactive", db, cache, true)
            else
              let res := ApiKeyValidationResult.ok row.id row.user_id sub.tier
              (res, updateLastUsed db row.id now,
               cacheSet down now cache cacheKey (.vres res) CACHE_TTL_API_KEY, true)

/-- `ApiKeyService.generateKey` (lines 305-332).  `bh` is `bcrypt.hash` at cost
10, `env` is `'live'`/`'test'` from `NODE_ENV`, `rand` is the hex string of
`crypto.randomBytes(16)`.  Returns `({apiKey, id}, db)`. -/
def generateKey (bh : String → String) (env rand : String) (db : Db)
    (userId subId name : String) : (String × String) × Db :=
  let apiKey := "wa_" ++ env ++ "_" ++ rand
  let pfx := strTake apiKey 12
  let newId := "key_" ++ toString db.nextKeyNum
  let row : ApiKeyRow :=
    { id := newId, user_id := userId, subscription_id := subId, key_hash := bh apiKey,
      key_pfx := pfx, name := name, is_active := true, expires_at := none,
      last_used_at := none }
  ((apiKey, newId), { db with keys := db.keys ++ [row], nextKeyNum := db.nextKeyNum + 1 })

/-- `ApiKeyService.regenerateKey` (lines 334-370).  `none` models the thrown
`'API key not found'`. -/
def regenerateKey (bh : String → String) (env rand : String) (down : Bool) (now : Int)
    (db : Db) (cache : CacheState) (keyId userId : String) :
    Option ((String × String) × Db × CacheState) :=
  match maybeSingle (db.keys.filter fun r => r.id == keyId && r.user_id == userId) with
  | none => none
  | some oldKey =>
    let keyPfxData := maybeSingle (db.keys.filter fun r => r.id == keyId)
    let db1 := { db with keys := db.keys.map fun r =>
        if r.id == keyId then { r with expires_at := some (now + 24 * 60 * 60 * 1000) } else r }
    let cache' := match keyPfxData with
      | some r => cacheDel down cache ("apikey:" ++ r.key_pfx)
      | none => cache
    let g := generateKey bh env rand db1 userId oldKey.subscription_id oldKey.name
    some (g.1, g.2, cache')

/-- `ApiKeyService.revokeKey` (lines 372-400): deactivate the row matching
`id` and `user_id`, then delete the cached validation entry for its prefix.
Returns `(true, db, cache)`. -/
def revokeKey (down : Bool) (db : Db) (cache : CacheState) (keyId userId : String) :
    Bool × Db × CacheState :=
  let keyData := maybeSingle (db.keys.filter fun r => r.id == keyId && r.user_id == userId)
  let db' := { db with keys := db.keys.map fun r =>
      if r.id == keyId && r.user_id == userId then { r with is_active := false } else r }
  let cache' := match keyData with
    | some r => cacheDel down cache ("apikey:" ++ r.key_pfx)
    | none => cache
  (true, db', cache')

/-- Sequential `validateKey` calls on the same credential at the given
timestamps, each threading the database and cache it produced. -/
def validateSeq (bc : String → String → Bool) (apiKey : String) :
    List Int → Db → CacheState → List ApiKeyValidationResult
  | [], _, _ => []
  | t :: ts, db, cache =>
      let o := validateKey bc false t db cache apiKey
      o.1 :: validateSeq bc apiKey ts o.2.1 o.2.2.1

/-! ### Proof-side definitions

Scenario state for the minute-window property: a single tenant `keyId` whose
window opened at `t0`; after `k ≥ 1` admitted requests the `rate_limits`
table holds a `per_minute` row at count `k` (and, for a finite monthly cap, a
`monthly` row at count `k`).  `noActivePfx` / `noOkCacheEntry` are the
revoked-state invariants. -/

/-- The tenant's `per_minute` row. -/
def mrow (keyId : String) (t0 : Int) (k : Nat) : RateLimitRow :=
  ⟨0, keyId, "per_minute", t0, k⟩

/-- The tenant's `monthly` row. -/
def orow (keyId : String) (t0 : Int) (k : Nat) : RateLimitRow :=
  ⟨1, keyId, "monthly", t0, k⟩

/-- Table contents after `k ≥ 1` admitted requests of the scenario. -/
def c2State (keyId : String) (t0 : Int) (M : Int) (k : Nat) : RLState :=
  if M = -1 then ⟨[mrow keyId t0 k], 1⟩ else ⟨[mrow keyId t0 k, orow keyId t0 k], 2⟩

/-- Expected results of calls `k+1 .. k+len` of the scenario (all admitted). -/
def c2Allowed (N : Nat) (t0 : Int) : Nat → Nat → List RLResult
  | _, 0 => []
  | k, len + 1 =>
      { allowed := true, remaining := (N : Int) - (k + 1), resetAt := some (t0 + 60 * 1000),
        limitType := none, limit := some N } :: c2Allowed N t0 (k + 1) len

/-- No active `api_keys` row carries the prefix `p`. -/
def noActivePfx (db : Db) (p : String) : Prop :=
  ∀ r ∈ db.keys, r.key_pfx = p → r.is_active = false

/-- No cache entry under `ck` holds a valid validation result. -/
def noOkCacheEntry (cache : CacheState) (ck : String) : Prop :=
  ∀ e ∈ cache, e.key = ck → ∀ kid uid tr, e.val ≠ .vres (.ok kid uid tr)

/-! ## C1: fail-open behaviour of `checkRateLimit` -/

/-- C1 (amended): if the backing counter store errors during a rate-limit
check, `checkRateLimit` fails open: the Supabase queries resolve with null
data, so the code takes the fresh-window branch and returns `allowed:true`
with `remaining = limit - 1` (the request itself is counted against the
quota) and a window-length reset `now + 60s`; it never throws or denies, and
the store state is left unchanged. -/
theorem checkRateLimit_store_error_fails_open (limits : TierLimits) (now : Int)
    (keyId : String) (st : RLState) :
    checkRateLimitWith limits true now keyId st =
      ({ allowed := true, remaining := (limits.perMinute : Int) - 1,
         resetAt := some (now + 60 * 1000), limitType := none,
         limit := some limits.perMinute }, st) := by
  simp [checkRateLimitWith, checkLimit]

/-- C1 counterexample to the claim as stated: with the store erroring, a
free-tier check returns `remaining = 9`, not the full quota `10`: the
fail-open reply does not carry the full remaining quota. -/
theorem checkRateLimit_fail_open_not_full_quota :
    (checkRateLimit .free true 0 "key1" ⟨[], 0⟩).1.allowed = true ∧
    (checkRateLimit .free true 0 "key1" ⟨[], 0⟩).1.remaining ≠
      ((TIER_LIMITS .free).perMinute : Int) := by decide

/-! ## C5: does a denied request consume a slot? -/

/-- C5 (amended): a denied over-limit request does NOT consume a slot: the
deny branch of `checkLimit` returns before any write, so whenever a check
denies, the post-state equals the pre-state and in particular the stored
window counter is unchanged; denial is decided on the pre-increment count. -/
theorem checkLimit_deny_leaves_state_unchanged (down : Bool) (now : Int)
    (keyId lt : String) (maxRequests windowSeconds : Nat) (st : RLState)
    (h : (checkLimit down now keyId lt maxRequests windowSeconds st).1.allowed = false) :
    (checkLimit down now keyId lt maxRequests windowSeconds st).2 = st := by
  unfold checkLimit at h ⊢
  cases hm : (if down = true then none else
      maybeSingle (rlMatches now keyId lt windowSeconds st.rows)) with
  | none => rw [hm] at h; simp at h
  | some r =>
      rw [hm] at h
      dsimp only at h ⊢
      by_cases hc : r.request_count ≥ maxRequests
      · simp [hc]
      · simp [hc] at h

/-- Witness for C5's amended theorem: a free-tier minute window already at its
cap of 10 denies the next request and leaves the counter at 10. -/
theorem checkLimit_deny_leaves_state_unchanged_witness :
    (checkLimit false 0 "k" "per_minute" 10 60
        ⟨[⟨0, "k", "per_minute", 0, 10⟩], 1⟩).1.allowed = false ∧
    (checkLimit false 0 "k" "per_minute" 10 60
        ⟨[⟨0, "k", "per_minute", 0, 10⟩], 1⟩).2 = ⟨[⟨0, "k", "per_minute", 0, 10⟩], 1⟩ :=
  ⟨by decide, checkLimit_deny_leaves_state_unchanged false 0 "k" "per_minute" 10 60
      ⟨[⟨0, "k", "per_minute", 0, 10⟩], 1⟩ (by decide)⟩

/-- C5 counterexample to the claim as stated: a denial at a pre-state counter
of 10 leaves the stored counter at 10, not 11 — the over-limit request has
not been counted when the denial is returned. -/
theorem checkLimit_denied_does_not_consume :
    (checkLimit false 0 "k" "per_minute" 10 60
        ⟨[⟨0, "k", "per_minute", 0, 10⟩], 1⟩).1.allowed = false ∧
    ((checkLimit false 0 "k" "per_minute" 10 60
        ⟨[⟨0, "k", "per_minute", 0, 10⟩], 1⟩).2.rows.map
      fun r => r.request_count) = [10] := by decide

/-! ## C8: cache-aside round trip of `getOrSet` -/

/-- C8 (amended): on a cold key, `getOrSet` calls the fetcher exactly once and
returns its data uncached; provided the fetched data is not `null`, a second
`getOrSet` of the same key within the TTL calls the fetcher zero times and
returns the identical data from the cache.  (For a fetcher producing `null`
the second call misses and fetches again — see the counterexample.) -/
theorem getOrSet_round_trip (st : CacheState) (k : String) (d : CVal) (ttl : Nat)
    (t t2 : Int) (hcold : cacheGet false t st k = .vnull) (hd : d ≠ .vnull)
    (hwin : t2 < t + (ttl : Int) * 1000) :
    getOrSet false t st k d ttl = ⟨d, false, cacheSet false t st k d ttl, 1⟩ ∧
    getOrSet false t2 (cacheSet false t st k d ttl) k d ttl =
      ⟨d, true, cacheSet false t st k d ttl, 0⟩ := by
  constructor
  · simp [getOrSet, hcold]
  · have hget : cacheGet false t2 (cacheSet false t st k d ttl) k = d := by
      simp [cacheGet, cacheSet, List.find?_cons, hwin]
    simp [getOrSet, hget, hd]

/-- Witness for C8's amended theorem at a concrete cold key. -/
theorem getOrSet_round_trip_witness :
    getOrSet false 0 [] "wk" (.vstr "v") 60 =
      ⟨.vstr "v", false, cacheSet false 0 [] "wk" (.vstr "v") 60, 1⟩ ∧
    getOrSet false 59999 (cacheSet false 0 [] "wk" (.vstr "v") 60) "wk" (.vstr "v") 60 =
      ⟨.vstr "v", true, cacheSet false 0 [] "wk" (.vstr "v") 60, 0⟩ :=
  getOrSet_round_trip [] "wk" (.vstr "v") 60 0 59999 (by decide) (by decide) (by decide)

/-- C8 counterexample to the claim as stated: with a fetcher that produces
JSON `null`, the cached `null` is indistinguishable from a miss
(`cached !== null` fails), so the second call within the TTL invokes the
fetcher again — one call, not the claimed zero. -/
theorem getOrSet_null_refetches :
    (getOrSet false 0 [] "nk" .vnull 60).fetcherCalls = 1 ∧
    (getOrSet false 1 (getOrSet false 0 [] "nk" .vnull 60).st "nk" .vnull 60).fetcherCalls
      = 1 := by decide

/-! ## C2: exact per-minute window behaviour -/

/-- First call of the scenario: both counters are created at 1. -/
theorem c2_step_first (limits : TierLimits) (keyId : String) (t0 : Int) :
    checkRateLimitWith limits false t0 keyId ⟨[], 0⟩ =
      ({ allowed := true, remaining := (limits.perMinute : Int) - 1,
         resetAt := some (t0 + 60 * 1000), limitType := none,
         limit := some limits.perMinute },
       c2State keyId t0 limits.monthly 1) := by
  by_cases hM : limits.monthly = -1 <;>
    simp [checkRateLimitWith, checkLimit, rlMatches, maybeSingle, c2State, mrow, orow, hM]

/-- Mid-window call `k+1` of the scenario, still under the minute limit: the
counters advance from `k` to `k+1` and the call is admitted with
`remaining = perMinute - (k+1)`. -/
theorem c2_step_allowed (limits : TierLimits) (keyId : String) (t0 t : Int) (k : Nat)
    (h1 : 1 ≤ k) (hk : k < limits.perMinute)
    (hM : limits.monthly = -1 ∨ (limits.perMinute : Int) ≤ limits.monthly)
    (htb : t ≤ t0 + 60 * 1000) :
    checkRateLimitWith limits false t keyId (c2State keyId t0 limits.monthly k) =
      ({ allowed := true, remaining := (limits.perMinute : Int) - (k + 1),
         resetAt := some (t0 + 60 * 1000), limitType := none,
         limit := some limits.perMinute },
       c2State keyId t0 limits.monthly (k + 1)) := by
  have hmin : t ≤ t0 + 60000 := by omega
  have hmon : t ≤ t0 + 2592000000 := by omega
  have hknot : ¬ limits.perMinute ≤ k := by omega
  rcases hM with hM | hM
  · simp [checkRateLimitWith, checkLimit, rlMatches, maybeSingle, c2State, mrow, orow, hM,
      List.filter_cons, List.filter_nil, hmin, hknot]
  · have hMne : limits.monthly ≠ -1 := by omega
    have hkM : ¬ limits.monthly.toNat ≤ k := by omega
    simp [checkRateLimitWith, checkLimit, rlMatches, maybeSingle, c2State, mrow, orow, hMne,
      List.filter_cons, List.filter_nil, hmin, hmon, hknot, hkM]

/-- Over-limit call of the scenario: once the minute counter has reached the
limit, the call is denied with `remaining = 0` and the state is unchanged. -/
theorem c2_step_deny (limits : TierLimits) (keyId : String) (t0 t : Int) (k : Nat)
    (hk : limits.perMinute ≤ k) (htb : t ≤ t0 + 60 * 1000) :
    checkRateLimitWith limits false t keyId (c2State keyId t0 limits.monthly k) =
      ({ allowed := false, remaining := 0, resetAt := some (t0 + 60 * 1000),
         limitType := some "per_minute", limit := none },
       c2State keyId t0 limits.monthly k) := by
  have hmin : t ≤ t0 + 60000 := by omega
  by_cases hM : limits.monthly = -1 <;>
    simp [checkRateLimitWith, checkLimit, rlMatches, maybeSingle, c2State, mrow, orow, hM,
      List.filter_cons, List.filter_nil, hmin, hk]

theorem c2Allowed_length (N : Nat) (t0 : Int) :
    ∀ len k, (c2Allowed N t0 k len).length = len := by
  intro len
  induction len with
  | zero => intro k; rfl
  | succ n ih => intro k; simp [c2Allowed, ih]

theorem c2Allowed_get (N : Nat) (t0 : Int) :
    ∀ len k j, j < len → (c2Allowed N t0 k len)[j]? =
      some { allowed := true, remaining := (N : Int) - (k + j + 1),
             resetAt := some (t0 + 60 * 1000), limitType := none, limit := some N } := by
  intro len
  induction len with
  | zero => omega
  | succ n ih =>
      intro k j hj
      cases j with
      | zero => simp [c2Allowed]
      | succ j' =>
          have := ih (k + 1) j' (by omega)
          simp only [c2Allowed, List.getElem?_cons_succ, this]
          congr 2
          push_cast
          ring

/-- Admitted phase of the scenario: starting from `k ≥ 1` recorded requests,
`len` further calls inside the window with `k + len ≤ perMinute` are all
admitted and advance the counters to `k + len`. -/
theorem c2_phase (limits : TierLimits) (keyId : String) (t0 : Int)
    (hM : limits.monthly = -1 ∨ (limits.perMinute : Int) ≤ limits.monthly) :
    ∀ (len k : Nat) (ts : List Int), ts.length = len → 1 ≤ k →
      k + len ≤ limits.perMinute → (∀ t ∈ ts, t ≤ t0 + 60 * 1000) →
      runChecks limits keyId ts (c2State keyId t0 limits.monthly k) =
        (c2Allowed limits.perMinute t0 k len, c2State keyId t0 limits.monthly (k + len)) := by
  intro len
  induction len with
  | zero =>
      intro k ts hts _ _ _
      rw [List.length_eq_zero] at hts
      subst hts
      rfl
  | succ n ih =>
      intro k ts hts hk1 hkn hb
      cases ts with
      | nil => simp at hts
      | cons t ts' =>
          have hstep := c2_step_allowed limits keyId t0 t k hk1 (by omega) hM
            (hb t (by simp))
          have hrec := ih (k + 1) ts' (by simpa using hts) (by omega) (by omega)
            (fun u hu => hb u (by simp [hu]))
          simp only [runChecks, hstep, hrec, c2Allowed]
          have hkn1 : k + 1 + n = k + (n + 1) := by omega
          rw [hkn1]

theorem runChecks_append (limits : TierLimits) (keyId : String) (l1 l2 : List Int)
    (st : RLState) :
    runChecks limits keyId (l1 ++ l2) st =
      ((runChecks limits keyId l1 st).1 ++
         (runChecks limits keyId l2 (runChecks limits keyId l1 st).2).1,
       (runChecks limits keyId l2 (runChecks limits keyId l1 st).2).2) := by
  induction l1 generalizing st with
  | nil => simp [runChecks]
  | cons t ts ih => simp [runChecks, ih]

/-- C2: for a tenant whose tier has per-minute limit `N ≥ 1` (and a monthly
cap that is unlimited or at least `N`), `N+1` sequential `checkRateLimit`
calls within one minute window starting from a fresh window state admit
exactly the first `N` calls, with `remaining` running `N-1, N-2, …, 0`, and
deny the `(N+1)`-th with `remaining = 0`. -/
theorem checkRateLimit_minute_window_exact (limits : TierLimits) (keyId : String)
    (t0 : Int) (rest : List Int) (hN : 1 ≤ limits.perMinute)
    (hM : limits.monthly = -1 ∨ (limits.perMinute : Int) ≤ limits.monthly)
    (hlen : rest.length = limits.perMinute)
    (hb : ∀ t ∈ rest, t0 ≤ t ∧ t ≤ t0 + 60 * 1000) :
    ((runChecks limits keyId (t0 :: rest) ⟨[], 0⟩).1.length = limits.perMinute + 1) ∧
    (∀ i : Nat, i < limits.perMinute →
      ∃ r, (runChecks limits keyId (t0 :: rest) ⟨[], 0⟩).1[i]? = some r ∧
        r.allowed = true ∧ r.remaining = (limits.perMinute : Int) - 1 - i) ∧
    (∃ r, (runChecks limits keyId (t0 :: rest) ⟨[], 0⟩).1[limits.perMinute]? = some r ∧
      r.allowed = false ∧ r.remaining = 0) := by
  have hne : rest ≠ [] := by
    intro h
    rw [h] at hlen
    simp at hlen
    omega
  have hsplit : rest.dropLast ++ [rest.getLast hne] = rest :=
    List.dropLast_append_getLast hne
  have hmidlen : rest.dropLast.length = limits.perMinute - 1 := by
    rw [List.length_dropLast, hlen]
  have hmemmid : ∀ u ∈ rest.dropLast, u ≤ t0 + 60 * 1000 := by
    intro u hu
    have : u ∈ rest := by
      rw [← hsplit]
      exact List.mem_append_left _ hu
    exact (hb u this).2
  have hlastb : rest.getLast hne ≤ t0 + 60 * 1000 :=
    (hb _ (List.getLast_mem hne)).2
  have hphase := c2_phase limits keyId t0 hM (limits.perMinute - 1) 1 rest.dropLast
    hmidlen (le_refl 1) (by omega) hmemmid
  have hdeny := c2_step_deny limits keyId t0 (rest.getLast hne) limits.perMinute
    (le_refl _) hlastb
  have hone : 1 + (limits.perMinute - 1) = limits.perMinute := by omega
  have hfull : (runChecks limits keyId (t0 :: rest) ⟨[], 0⟩).1 =
      { allowed := true, remaining := (limits.perMinute : Int) - 1,
        resetAt := some (t0 + 60 * 1000), limitType := none,
        limit := some limits.perMinute } ::
      (c2Allowed limits.perMinute t0 1 (limits.perMinute - 1) ++
        [{ allowed := false, remaining := 0, resetAt := some (t0 + 60 * 1000),
           limitType := some "per_minute", limit := none }]) := by
    conv_lhs => rw [← hsplit]
    rw [show (t0 :: (rest.dropLast ++ [rest.getLast hne])) =
      (t0 :: rest.dropLast) ++ [rest.getLast hne] from rfl]
    rw [runChecks_append]
    have h1 : runChecks limits keyId (t0 :: rest.dropLast) ⟨[], 0⟩ =
        ({ allowed := true, remaining := (limits.perMinute : Int) - 1,
           resetAt := some (t0 + 60 * 1000), limitType := none,
           limit := some limits.perMinute } ::
           c2Allowed limits.perMinute t0 1 (limits.perMinute - 1),
         c2State keyId t0 limits.monthly limits.perMinute) := by
      simp only [runChecks, c2_step_first, hphase]
      rw [hone]
    rw [h1]
    simp only [runChecks, hdeny]
    rw [List.cons_append]
  refine ⟨?_, ?_, ?_⟩
  · rw [hfull]
    simp [c2Allowed_length]
    omega
  · intro i hi
    cases i with
    | zero =>
        rw [hfull]
        refine ⟨_, List.getElem?_cons_zero, rfl, ?_⟩
        push_cast
        ring
    | succ j =>
        have hj : j < limits.perMinute - 1 := by omega
        rw [hfull, List.getElem?_cons_succ,
          List.getElem?_append_left (by rw [c2Allowed_length]; exact hj),
          c2Allowed_get limits.perMinute t0 (limits.perMinute - 1) 1 j hj]
        refine ⟨_, rfl, rfl, ?_⟩
        push_cast
        ring
  · rw [hfull]
    cases hN' : limits.perMinute with
    | zero => omega
    | succ m =>
        rw [List.getElem?_cons_succ,
          List.getElem?_append_right (by rw [c2Allowed_length]; omega),
          c2Allowed_length]
        have hidx : m - (m + 1 - 1) = 0 := by omega
        rw [hidx]
        exact ⟨_, rfl, rfl, rfl⟩

/-- Witness for C2: a fresh free-tier tenant (limit 10/min) making 11 calls
inside one minute gets 10 admissions counting down from 9 and then a denial. -/
theorem checkRateLimit_minute_window_exact_witness :
    ((runChecks (TIER_LIMITS .free) "tenant" ((0 : Int) :: List.replicate 10 (0 : Int))
        ⟨[], 0⟩).1.length = (TIER_LIMITS .free).perMinute + 1) ∧
    (∀ i : Nat, i < (TIER_LIMITS .free).perMinute →
      ∃ r, (runChecks (TIER_LIMITS .free) "tenant" ((0 : Int) :: List.replicate 10 (0 : Int))
          ⟨[], 0⟩).1[i]? = some r ∧
        r.allowed = true ∧ r.remaining = ((TIER_LIMITS .free).perMinute : Int) - 1 - i) ∧
    (∃ r, (runChecks (TIER_LIMITS .free) "tenant" ((0 : Int) :: List.replicate 10 (0 : Int))
        ⟨[], 0⟩).1[(TIER_LIMITS .free).perMinute]? = some r ∧
      r.allowed = false ∧ r.remaining = 0) :=
  checkRateLimit_minute_window_exact (TIER_LIMITS .free) "tenant" 0
    (List.replicate 10 (0 : Int)) (by decide) (Or.inr (by decide)) (by decide) (by decide)

/-! ## C4: the monthly check -/

/-- Helper: whenever `checkLimit` denies, the reported `limitType` is the
limit type it was checking. -/
theorem checkLimit_deny_type (down : Bool) (now : Int) (keyId lt : String)
    (maxRequests windowSeconds : Nat) (st : RLState)
    (h : (checkLimit down now keyId lt maxRequests windowSeconds st).1.allowed = false) :
    (checkLimit down now keyId lt maxRequests windowSeconds st).1.limitType = some lt := by
  unfold checkLimit at h ⊢
  cases hm : (if down = true then none else
      maybeSingle (rlMatches now keyId lt windowSeconds st.rows)) with
  | none => rw [hm] at h; simp at h
  | some r =>
      rw [hm] at h
      dsimp only at h ⊢
      by_cases hc : r.request_count ≥ maxRequests
      · simp [hc]
      · simp [hc] at h

/-- C4 (amended): a tier with `monthly = -1` skips the monthly check entirely,
so any denial carries `limitType = "per_minute"` — such a tier is never
denied on monthly grounds.  For a finite cap the monthly counting is NOT
calendar-anchored: it uses a rolling window row, and once the row's count has
reached the cap (and the minute check passed) the request is denied with
`resetAt = window_start + 30 days`, where `window_start` is the timestamp of
the first request counted in that window — not the first instant of the next
calendar month. -/
theorem checkRateLimit_monthly_cap_behaviour :
    (∀ (limits : TierLimits) (down : Bool) (now : Int) (keyId : String) (st : RLState),
      limits.monthly = -1 →
      (checkRateLimitWith limits down now keyId st).1.allowed = false →
      (checkRateLimitWith limits down now keyId st).1.limitType = some "per_minute") ∧
    (∀ (limits : TierLimits) (now : Int) (keyId : String) (st : RLState) (r : RateLimitRow),
      limits.monthly ≠ -1 →
      (checkLimit false now keyId "per_minute" limits.perMinute 60 st).1.allowed = true →
      maybeSingle (rlMatches now keyId "monthly" (30 * 24 * 60 * 60)
          (checkLimit false now keyId "per_minute" limits.perMinute 60 st).2.rows) = some r →
      limits.monthly.toNat ≤ r.request_count →
      checkRateLimitWith limits false now keyId st =
        ({ allowed := false, remaining := 0,
           resetAt := some (r.window_start + 2592000 * 1000),
           limitType := some "monthly", limit := none },
         (checkLimit false now keyId "per_minute" limits.perMinute 60 st).2)) := by
  constructor
  · intro limits down now keyId st hM hden
    by_cases hall : (checkLimit down now keyId "per_minute" limits.perMinute 60 st).1.allowed
    · simp [checkRateLimitWith, hall, hM] at hden
    · have hall' := Bool.not_eq_true _ ▸ hall
      simp only [checkRateLimitWith, Bool.not_eq_true] at hden ⊢
      rw [Bool.not_eq_true] at hall
      simp only [hall, Bool.not_false, if_true]
      exact checkLimit_deny_type down now keyId "per_minute" limits.perMinute 60 st hall
  · intro limits now keyId st r hMne hmin hr hcount
    have hdeny : ∀ (st1 : RLState),
        maybeSingle (rlMatches now keyId "monthly" (30 * 24 * 60 * 60) st1.rows) = some r →
        checkLimit false now keyId "monthly" limits.monthly.toNat (30 * 24 * 60 * 60) st1 =
          ({ allowed := false, remaining := 0,
             resetAt := some (r.window_start + 2592000 * 1000),
             limitType := some "monthly", limit := none }, st1) := by
      intro st1 hr1
      unfold checkLimit
      simp only [Bool.false_eq_true, if_false, hr1]
      rw [if_pos hcount]
      norm_num
    simp [checkRateLimitWith, hmin, hMne, hdeny _ hr]

/-- Witness for C4's amended theorem: an enterprise tenant (`monthly = -1`)
over its minute limit is denied on per-minute grounds only, and a free tenant
whose monthly row opened at `t = 0` with count 1000 is denied on monthly
grounds with `resetAt = 0 + 30 days`. -/
theorem checkRateLimit_monthly_cap_behaviour_witness :
    (checkRateLimitWith (TIER_LIMITS .enterprise) false 0 "k"
        ⟨[⟨0, "k", "per_minute", 0, 500⟩], 1⟩).1.limitType = some "per_minute" ∧
    checkRateLimitWith (TIER_LIMITS .free) false 5000 "k"
        ⟨[⟨0, "k", "monthly", 0, 1000⟩], 1⟩ =
      ({ allowed := false, remaining := 0, resetAt := some (0 + 2592000 * 1000),
         limitType := some "monthly", limit := none },
       (checkLimit false 5000 "k" "per_minute" (TIER_LIMITS .free).perMinute 60
          ⟨[⟨0, "k", "monthly", 0, 1000⟩], 1⟩).2) :=
  ⟨checkRateLimit_monthly_cap_behaviour.1 (TIER_LIMITS .enterprise) false 0 "k"
      ⟨[⟨0, "k", "per_minute", 0, 500⟩], 1⟩ rfl (by decide),
   checkRateLimit_monthly_cap_behaviour.2 (TIER_LIMITS .free) 5000 "k"
      ⟨[⟨0, "k", "monthly", 0, 1000⟩], 1⟩ ⟨0, "k", "monthly", 0, 1000⟩
      (by decide) (by decide) (by decide) (by decide)⟩

/-- C4 counterexample to the claim as stated: a free-tier denial on monthly
grounds at `now = 5000` (early January 1970, window opened at the epoch)
returns `resetAt = 2 592 000 000` (= window start + 30 days), while the first
instant of the next calendar month is `2 678 400 000` (1970-02-01T00:00Z);
the denial's `resetAt` is not the first instant of the next calendar month. -/
theorem checkRateLimit_monthly_resetAt_not_calendar :
    (checkRateLimit .free false 5000 "k" ⟨[⟨0, "k", "monthly", 0, 1000⟩], 1⟩).1.allowed
        = false ∧
    (checkRateLimit .free false 5000 "k" ⟨[⟨0, "k", "monthly", 0, 1000⟩], 1⟩).1.limitType
        = some "monthly" ∧
    (checkRateLimit .free false 5000 "k" ⟨[⟨0, "k", "monthly", 0, 1000⟩], 1⟩).1.resetAt
        = some 2592000000 ∧
    firstInstantOfNextCalendarMonthMs 5000 = 2678400000 ∧
    (checkRateLimit .free false 5000 "k" ⟨[⟨0, "k", "monthly", 0, 1000⟩], 1⟩).1.resetAt
        ≠ some (firstInstantOfNextCalendarMonthMs 5000) := by decide

/-! ## C9: distinctness of generated keys and prefixes -/

theorem string_data_inj {s t : String} (h : s.data = t.data) : s = t := by
  cases s
  cases t
  exact congrArg String.mk h

theorem string_data_append (s t : String) : (s ++ t).data = s.data ++ t.data := by
  cases s
  cases t
  rfl

/-- C9 (amended): two `generateKey` calls in the same environment whose random
strings differ return distinct plaintext keys; their derived 12-character
lookup prefixes are distinct provided the first four characters of the random
strings differ (the key is `wa_<env>_<rand>` with a 4-character environment,
so only 4 random characters survive in the 12-character prefix — equal
4-character heads give colliding prefixes, see the counterexample). -/
theorem generateKey_distinct_of_rand (bh : String → String) (env r1 r2 : String)
    (db1 db2 : Db) (u1 s1 n1 u2 s2 n2 : String) :
    (r1 ≠ r2 →
      (generateKey bh env r1 db1 u1 s1 n1).1.1 ≠ (generateKey bh env r2 db2 u2 s2 n2).1.1) ∧
    (env.length = 4 → strTake r1 4 ≠ strTake r2 4 →
      strTake (generateKey bh env r1 db1 u1 s1 n1).1.1 12 ≠
        strTake (generateKey bh env r2 db2 u2 s2 n2).1.1 12) := by
  have hk : ∀ (db : Db) (u s n : String) (r : String),
      (generateKey bh env r db u s n).1.1 = "wa_" ++ env ++ "_" ++ r := fun _ _ _ _ _ => rfl
  constructor
  · intro hne heq
    rw [hk, hk] at heq
    apply hne
    apply string_data_inj
    have hd := congrArg String.data heq
    simp only [string_data_append] at hd
    exact List.append_cancel_left hd
  · intro hl h4 heq
    rw [hk, hk] at heq
    apply h4
    have hd := congrArg String.data heq
    have hbase : ("wa_" ++ env ++ "_").data.length = 8 := by
      simp [string_data_append, hl]
    have hsplit : ∀ r : String,
        (strTake ("wa_" ++ env ++ "_" ++ r) 12).data =
          ("wa_" ++ env ++ "_").data ++ r.data.take 4 := by
      intro r
      have hassoc : "wa_" ++ env ++ "_" ++ r = ("wa_" ++ env ++ "_") ++ r := by
        apply string_data_inj
        simp [string_data_append]
      rw [hassoc]
      show (("wa_" ++ env ++ "_") ++ r).data.take 12 = _
      rw [string_data_append, List.take_append_eq_append_take, hbase,
        List.take_of_length_le (by rw [hbase]; norm_num)]
    rw [hsplit, hsplit] at hd
    apply string_data_inj
    exact List.append_cancel_left hd

/-- Witness for C9's amended theorem at two concrete 32-hex-character random
strings differing in head and tail. -/
theorem generateKey_distinct_of_rand_witness :
    ("wxyz0000000000000000000000000001" ≠ "abcd0000000000000000000000000002" →
      (generateKey (fun s => s) "test" "wxyz0000000000000000000000000001"
          ⟨[], [], 0⟩ "u" "s" "k1").1.1 ≠
        (generateKey (fun s => s) "test" "abcd0000000000000000000000000002"
          ⟨[], [], 0⟩ "u" "s" "k2").1.1) ∧
    ("test".length = 4 →
      strTake "wxyz0000000000000000000000000001" 4 ≠
        strTake "abcd0000000000000000000000000002" 4 →
      strTake (generateKey (fun s => s) "test" "wxyz0000000000000000000000000001"
          ⟨[], [], 0⟩ "u" "s" "k1").1.1 12 ≠
        strTake (generateKey (fun s => s) "test" "abcd0000000000000000000000000002"
          ⟨[], [], 0⟩ "u" "s" "k2").1.1 12) :=
  generateKey_distinct_of_rand (fun s => s) "test"
    "wxyz0000000000000000000000000001" "abcd0000000000000000000000000002"
    ⟨[], [], 0⟩ ⟨[], [], 0⟩ "u" "s" "k1" "u" "s" "k2"

/-- C9 counterexample to the claim as stated: two sequential `generateKey`
calls whose random strings agree on the first four hex characters return
distinct plaintext keys but the SAME 12-character lookup prefix
(`wa_test_aaaa`), so the prefixes of two calls are not always distinct. -/
theorem generateKey_prefix_collision :
    (generateKey (fun s => s) "test" "aaaa000000000000000000000000000a"
        ⟨[], [], 0⟩ "u" "s" "k1").1.1 ≠
      (generateKey (fun s => s) "test" "aaaa000000000000000000000000000b"
        (generateKey (fun s => s) "test" "aaaa000000000000000000000000000a"
          ⟨[], [], 0⟩ "u" "s" "k1").2 "u" "s" "k2").1.1 ∧
    strTake (generateKey (fun s => s) "test" "aaaa000000000000000000000000000a"
        ⟨[], [], 0⟩ "u" "s" "k1").1.1 12 =
      strTake (generateKey (fun s => s) "test" "aaaa000000000000000000000000000b"
        (generateKey (fun s => s) "test" "aaaa000000000000000000000000000a"
          ⟨[], [], 0⟩ "u" "s" "k1").2 "u" "s" "k2").1.1 12 := by decide

/-! ## C7: key regeneration -/

/-- C7: `regenerateKey` on an existing key (the unique row with that id,
owned by the caller) succeeds, appends a brand-new `ApiKey` record (fresh id,
active, no expiry) and rewrites the old key's `expires_at` to 24 hours after
the call; the old row is otherwise untouched, so it stays active during the
grace window. -/
theorem regenerateKey_grace_window (bh : String → String) (env rand : String)
    (down : Bool) (now : Int) (db : Db) (cache : CacheState) (keyId userId : String)
    (row : ApiKeyRow)
    (hid : db.keys.filter (fun r => r.id == keyId) = [row])
    (hidu : db.keys.filter (fun r => r.id == keyId && r.user_id == userId) = [row])
    (hact : row.is_active = true) :
    regenerateKey bh env rand down now db cache keyId userId =
      some (("wa_" ++ env ++ "_" ++ rand, "key_" ++ toString db.nextKeyNum),
        { keys := (db.keys.map fun r =>
              if r.id == keyId then { r with expires_at := some (now + 24 * 60 * 60 * 1000) }
              else r) ++
            [{ id := "key_" ++ toString db.nextKeyNum, user_id := userId,
               subscription_id := row.subscription_id,
               key_hash := bh ("wa_" ++ env ++ "_" ++ rand),
               key_pfx := strTake ("wa_" ++ env ++ "_" ++ rand) 12, name := row.name,
               is_active := true, expires_at := none, last_used_at := none }],
          subs := db.subs, nextKeyNum := db.nextKeyNum + 1 },
        cacheDel down cache ("apikey:" ++ row.key_pfx)) ∧
    ({ row with expires_at := some (now + 24 * 60 * 60 * 1000) } ∈
        (db.keys.map fun r =>
          if r.id == keyId then { r with expires_at := some (now + 24 * 60 * 60 * 1000) }
          else r)) ∧
    ({ row with expires_at := some (now + 24 * 60 * 60 * 1000) } : ApiKeyRow).is_active
        = true := by
  have hrowmem : row ∈ db.keys ∧ (row.id == keyId) = true := by
    have : row ∈ db.keys.filter (fun r => r.id == keyId) := by
      rw [hid]
      exact List.mem_singleton_self row
    exact ⟨(List.mem_filter.mp this).1, (List.mem_filter.mp this).2⟩
  refine ⟨?_, ?_, hact⟩
  · simp only [regenerateKey, hidu, hid, maybeSingle, generateKey]
  · have := List.mem_map_of_mem
      (fun r : ApiKeyRow =>
        if r.id == keyId then { r with expires_at := some (now + 24 * 60 * 60 * 1000) }
        else r) hrowmem.1
    simpa [hrowmem.2] using this

/-- Witness for C7 on a one-key database: the old key `k1` gets
`expires_at = 1000 + 24h` yet stays active, and a fresh active key row is
appended. -/
theorem regenerateKey_grace_window_witness :
    regenerateKey (fun s => s) "test" "bbbb0000000000000000000000000000" false 1000
        ⟨[⟨"k1", "u1", "s1", "h", "wa_test_aaaa", "Default", true, none, none⟩],
          [("s1", ⟨.active, .pro⟩)], 5⟩ [] "k1" "u1" =
      some (("wa_" ++ "test" ++ "_" ++ "bbbb0000000000000000000000000000",
          "key_" ++ toString (5 : Nat)),
        { keys := ([(⟨"k1", "u1", "s1", "h", "wa_test_aaaa", "Default", true, none,
                none⟩ : ApiKeyRow)].map fun r =>
              if r.id == "k1" then
                { r with expires_at := some ((1000 : Int) + 24 * 60 * 60 * 1000) }
              else r) ++
            [{ id := "key_" ++ toString (5 : Nat), user_id := "u1",
               subscription_id := "s1",
               key_hash := (fun s => s) ("wa_" ++ "test" ++ "_" ++
                 "bbbb0000000000000000000000000000"),
               key_pfx := strTake ("wa_" ++ "test" ++ "_" ++
                 "bbbb0000000000000000000000000000") 12,
               name := "Default", is_active := true, expires_at := none,
               last_used_at := none }],
          subs := [("s1", ⟨.active, .pro⟩)], nextKeyNum := 5 + 1 },
        cacheDel false [] ("apikey:" ++ "wa_test_aaaa")) ∧
    ({ id := "k1", user_id := "u1", subscription_id := "s1", key_hash := "h",
       key_pfx := "wa_test_aaaa", name := "Default", is_active := true,
       expires_at := some ((1000 : Int) + 24 * 60 * 60 * 1000), last_used_at := none } ∈
      ([(⟨"k1", "u1", "s1", "h", "wa_test_aaaa", "Default", true, none, none⟩ :
          ApiKeyRow)].map
        fun r =>
          if r.id == "k1" then
            { r with expires_at := some ((1000 : Int) + 24 * 60 * 60 * 1000) }
          else r)) ∧
    ({ id := "k1", user_id := "u1", subscription_id := "s1", key_hash := "h",
       key_pfx := "wa_test_aaaa", name := "Default", is_active := true,
       expires_at := some ((1000 : Int) + 24 * 60 * 60 * 1000),
       last_used_at := none } : ApiKeyRow).is_active = true :=
  regenerateKey_grace_window (fun s => s) "test" "bbbb0000000000000000000000000000"
    false 1000
    ⟨[⟨"k1", "u1", "s1", "h", "wa_test_aaaa", "Default", true, none, none⟩],
      [("s1", ⟨.active, .pro⟩)], 5⟩ [] "k1" "u1"
    ⟨"k1", "u1", "s1", "h", "wa_test_aaaa", "Default", true, none, none⟩
    (by decide) (by decide) rfl

/-! ## C6: revocation is permanent -/

/-- Helper: when the cache holds no valid entry for the key's prefix,
`validateKey` is the pure database path. -/
theorem validateKey_not_cached_ok (bc : String → String → Bool) (down : Bool) (t : Int)
    (db : Db) (cache : CacheState) (apiKey : String)
    (hwf : ¬ (apiKey = "" ∨ ¬ strStartsWith apiKey "wa_"))
    (hcg : ∀ kid uid tr, cacheGet down t cache ("apikey:" ++ strTake apiKey 12) ≠
      .vres (.ok kid uid tr)) :
    validateKey bc down t db cache apiKey =
      (match lookupActive db (strTake apiKey 12) with
      | none => (.err "API key not found", db, cache, true)
      | some row =>
        if isExpired t row then (.err "API key expired", db, cache, true)
        else if ¬ bc apiKey row.key_hash then (.err "Invalid API key", db, cache, true)
        else match db.subs.lookup row.subscription_id with
          | none => (.err "No subscription found", db, cache, true)
          | some sub =>
            if sub.status ≠ .active ∧ sub.status ≠ .trialing then
              (.err "Subscription inactive", db, cache, true)
            else
              (ApiKeyValidationResult.ok row.id row.user_id sub.tier,
               updateLastUsed db row.id t,
               cacheSet down t cache ("apikey:" ++ strTake apiKey 12)
                 (.vres (.ok row.id row.user_id sub.tier)) CACHE_TTL_API_KEY, true)) := by
  unfold validateKey
  rw [if_neg hwf]
  dsimp only
  cases hv : cacheGet down t cache ("apikey:" ++ strTake apiKey 12) with
  | vnull => rfl
  | vstr s => rfl
  | vint n => rfl
  | vres r =>
      cases r with
      | err m => rfl
      | ok kid uid tr => exact absurd hv (hcg kid uid tr)

/-- Helper: with no active row for the prefix and no valid cached entry,
one `validateKey` call fails and changes neither the database nor the cache. -/
theorem validateKey_step_revoked (bc : String → String → Bool) (t : Int) (db : Db)
    (cache : CacheState) (apiKey : String)
    (h1 : noActivePfx db (strTake apiKey 12))
    (h2 : noOkCacheEntry cache ("apikey:" ++ strTake apiKey 12)) :
    (∀ kid uid tr, (validateKey bc false t db cache apiKey).1 ≠ .ok kid uid tr) ∧
    (validateKey bc false t db cache apiKey).2.1 = db ∧
    (validateKey bc false t db cache apiKey).2.2.1 = cache := by
  by_cases hwf : apiKey = "" ∨ ¬ strStartsWith apiKey "wa_"
  · unfold validateKey
    rw [if_pos hwf]
    exact ⟨fun kid uid tr h => ApiKeyValidationResult.noConfusion h, rfl, rfl⟩
  · have hcg : ∀ kid uid tr, cacheGet false t cache ("apikey:" ++ strTake apiKey 12) ≠
        .vres (.ok kid uid tr) := by
      intro kid uid tr hv
      unfold cacheGet at hv
      rw [if_neg (by simp)] at hv
      cases hf : List.find?
          (fun e => e.key == ("apikey:" ++ strTake apiKey 12) && decide (t < e.expiresAt))
          cache with
      | none => rw [hf] at hv; cases hv
      | some e =>
          rw [hf] at hv
          have hm := List.mem_of_find?_eq_some hf
          have hpred := List.find?_some hf
          rw [Bool.and_eq_true, beq_iff_eq] at hpred
          exact h2 e hm hpred.1 kid uid tr hv
    have hfilter : db.keys.filter
        (fun r => r.key_pfx == strTake apiKey 12 && r.is_active) = [] := by
      rw [List.filter_eq_nil_iff]
      intro r hr
      rw [Bool.and_eq_true, beq_iff_eq]
      rintro ⟨hpfx, hact⟩
      rw [h1 r hr hpfx] at hact
      cases hact
    have hla : lookupActive db (strTake apiKey 12) = none := by
      unfold lookupActive
      rw [hfilter]
      rfl
    rw [validateKey_not_cached_ok bc false t db cache apiKey hwf hcg, hla]
    exact ⟨fun kid uid tr h => ApiKeyValidationResult.noConfusion h, rfl, rfl⟩

/-- Helper: under the revoked-state invariants every future validation of the
credential fails, no matter how often it is retried. -/
theorem validateSeq_never_ok (bc : String → String → Bool) (apiKey : String) :
    ∀ (ts : List Int) (db : Db) (cache : CacheState),
      noActivePfx db (strTake apiKey 12) →
      noOkCacheEntry cache ("apikey:" ++ strTake apiKey 12) →
      ∀ res ∈ validateSeq bc apiKey ts db cache, ∀ kid uid tr, res ≠ .ok kid uid tr := by
  intro ts
  induction ts with
  | nil =>
      intro db cache _ _ res hres
      cases hres
  | cons t ts' ih =>
      intro db cache h1 h2 res hres
      obtain ⟨hnok, hdb, hcache⟩ := validateKey_step_revoked bc t db cache apiKey h1 h2
      rcases List.mem_cons.mp hres with hres | hres
      · subst hres
        exact hnok
      · rw [hdb, hcache] at hres
        exact ih db cache h1 h2 res hres

/-- C6: once `revokeKey` succeeds for the caller's key (the unique row with
that id/user pair, whose prefix no other row shares), the row is deactivated
and the cached validation entry for its prefix is deleted before the call
returns; every subsequent `validateKey` presentation of that credential
fails, no matter how many times it is retried. -/
theorem revokeKey_then_validateKey_always_fails (bc : String → String → Bool)
    (db : Db) (cache : CacheState) (keyId userId apiKey : String) (row : ApiKeyRow)
    (hidu : db.keys.filter (fun r => r.id == keyId && r.user_id == userId) = [row])
    (huniq : ∀ r ∈ db.keys, r.key_pfx = row.key_pfx → r = row)
    (hpk : strTake apiKey 12 = row.key_pfx) :
    (revokeKey false db cache keyId userId).1 = true ∧
    (∀ r ∈ (revokeKey false db cache keyId userId).2.1.keys,
      r.key_pfx = row.key_pfx → r.is_active = false) ∧
    (∀ e ∈ (revokeKey false db cache keyId userId).2.2,
      e.key ≠ "apikey:" ++ row.key_pfx) ∧
    (∀ (ts : List Int) (res : ApiKeyValidationResult),
      res ∈ validateSeq bc apiKey ts (revokeKey false db cache keyId userId).2.1
        (revokeKey false db cache keyId userId).2.2 →
      ∀ kid uid tr, res ≠ .ok kid uid tr) := by
  have hpredrow : (row.id == keyId && row.user_id == userId) = true := by
    have : row ∈ db.keys.filter (fun r => r.id == keyId && r.user_id == userId) := by
      rw [hidu]
      exact List.mem_singleton_self row
    exact (List.mem_filter.mp this).2
  have hrevoke : revokeKey false db cache keyId userId =
      (true,
       { db with keys := db.keys.map fun r =>
           if r.id == keyId && r.user_id == userId then { r with is_active := false }
           else r },
       cacheDel false cache ("apikey:" ++ row.key_pfx)) := by
    unfold revokeKey
    rw [hidu]
    rfl
  have hnoact : ∀ r ∈ (revokeKey false db cache keyId userId).2.1.keys,
      r.key_pfx = row.key_pfx → r.is_active = false := by
    rw [hrevoke]
    intro r' hr' hpfx
    obtain ⟨r, hrmem, hrimg⟩ := List.mem_map.mp hr'
    by_cases hcond : (r.id == keyId && r.user_id == userId) = true
    · rw [hcond] at hrimg
      simp only [if_true] at hrimg
      rw [← hrimg]
    · rw [if_neg (by simpa using hcond)] at hrimg
      subst hrimg
      have hre : r = row := huniq r hrmem hpfx
      rw [hre] at hcond
      exact absurd hpredrow hcond
  have hnocache : ∀ e ∈ (revokeKey false db cache keyId userId).2.2,
      e.key ≠ "apikey:" ++ row.key_pfx := by
    rw [hrevoke]
    intro e he
    unfold cacheDel at he
    rw [if_neg (by simp)] at he
    have := (List.mem_filter.mp he).2
    simpa using this
  refine ⟨by rw [hrevoke], hnoact, hnocache, ?_⟩
  intro ts res hres kid uid tr
  refine validateSeq_never_ok bc apiKey ts
    (revokeKey false db cache keyId userId).2.1
    (revokeKey false db cache keyId userId).2.2 ?_ ?_ res hres kid uid tr
  · intro r hr hpfx
    rw [hpk] at hpfx
    exact hnoact r hr hpfx
  · intro e he hk kid' uid' tr' hv
    rw [hpk] at hk
    exact absurd hk (hnocache e he)

/-- Witness for C6 on a one-key database: after revoking `k1`, presenting its
credential never validates again. -/
theorem revokeKey_then_validateKey_always_fails_witness :
    (revokeKey false
        ⟨[⟨"k1", "u1", "s1", "wa_test_aaaa000000000000000000000000", "wa_test_aaaa",
           "Default", true, none, none⟩], [("s1", ⟨.active, .pro⟩)], 1⟩
        [] "k1" "u1").1 = true ∧
    (∀ r ∈ (revokeKey false
        ⟨[⟨"k1", "u1", "s1", "wa_test_aaaa000000000000000000000000", "wa_test_aaaa",
           "Default", true, none, none⟩], [("s1", ⟨.active, .pro⟩)], 1⟩
        [] "k1" "u1").2.1.keys,
      r.key_pfx = "wa_test_aaaa" → r.is_active = false) ∧
    (∀ e ∈ (revokeKey false
        ⟨[⟨"k1", "u1", "s1", "wa_test_aaaa000000000000000000000000", "wa_test_aaaa",
           "Default", true, none, none⟩], [("s1", ⟨.active, .pro⟩)], 1⟩
        [] "k1" "u1").2.2,
      e.key ≠ "apikey:" ++ "wa_test_aaaa") ∧
    (∀ (ts : List Int) (res : ApiKeyValidationResult),
      res ∈ validateSeq (fun p h => p == h) "wa_test_aaaa000000000000000000000000" ts
        (revokeKey false
          ⟨[⟨"k1", "u1", "s1", "wa_test_aaaa000000000000000000000000", "wa_test_aaaa",
             "Default", true, none, none⟩], [("s1", ⟨.active, .pro⟩)], 1⟩
          [] "k1" "u1").2.1
        (revokeKey false
          ⟨[⟨"k1", "u1", "s1", "wa_test_aaaa000000000000000000000000", "wa_test_aaaa",
             "Default", true, none, none⟩], [("s1", ⟨.active, .pro⟩)], 1⟩
          [] "k1" "u1").2.2 →
      ∀ kid uid tr, res ≠ .ok kid uid tr) :=
  revokeKey_then_validateKey_always_fails (fun p h => p == h)
    ⟨[⟨"k1", "u1", "s1", "wa_test_aaaa000000000000000000000000", "wa_test_aaaa",
       "Default", true, none, none⟩], [("s1", ⟨.active, .pro⟩)], 1⟩
    [] "k1" "u1" "wa_test_aaaa000000000000000000000000"
    ⟨"k1", "u1", "s1", "wa_test_aaaa000000000000000000000000", "wa_test_aaaa",
     "Default", true, none, none⟩
    (by decide) (by decide) (by decide)

/-! ## C3: classification of `validateKey` outcomes -/

/-- Helper: a well-prefixed credential is non-empty. -/
theorem startsWith_wa_ne_empty {apiKey : String} (h : strStartsWith apiKey "wa_" = true) :
    apiKey ≠ "" := by
  intro he
  subst he
  cases h

/-- C3 (amended): when the cache holds no valid entry for the credential's
prefix (the database path), `validateKey` classifies every state exactly as
the claim lists: wrong format, unknown or revoked prefix (no active row),
expired key, hash mismatch, inactive subscription each produce their matching
error, a good key returns `valid:true` with its key id, user id and tier, and
on that path `valid:true` occurs in no other state.  A previously cached
`valid:true` entry, however, short-circuits all of these checks for up to the
5-minute cache TTL, so the unconditional claim fails — see the
counterexample of a cached key served as valid after it expired. -/
theorem validateKey_classification (bc : String → String → Bool) (now : Int) (db : Db)
    (cache : CacheState) (apiKey : String)
    (hmiss : ∀ kid uid tr, cacheGet false now cache ("apikey:" ++ strTake apiKey 12) ≠
      .vres (.ok kid uid tr)) :
    (¬ strStartsWith apiKey "wa_" = true →
      (validateKey bc false now db cache apiKey).1 = .err "Invalid API key format") ∧
    (strStartsWith apiKey "wa_" = true → lookupActive db (strTake apiKey 12) = none →
      (validateKey bc false now db cache apiKey).1 = .err "API key not found") ∧
    (∀ row, strStartsWith apiKey "wa_" = true →
      lookupActive db (strTake apiKey 12) = some row → isExpired now row = true →
      (validateKey bc false now db cache apiKey).1 = .err "API key expired") ∧
    (∀ row, strStartsWith apiKey "wa_" = true →
      lookupActive db (strTake apiKey 12) = some row → isExpired now row = false →
      bc apiKey row.key_hash = false →
      (validateKey bc false now db cache apiKey).1 = .err "Invalid API key") ∧
    (∀ row sub, strStartsWith apiKey "wa_" = true →
      lookupActive db (strTake apiKey 12) = some row → isExpired now row = false →
      bc apiKey row.key_hash = true →
      db.subs.lookup row.subscription_id = some sub →
      sub.status ≠ .active → sub.status ≠ .trialing →
      (validateKey bc false now db cache apiKey).1 = .err "Subscription inactive") ∧
    (∀ row sub, strStartsWith apiKey "wa_" = true →
      lookupActive db (strTake apiKey 12) = some row → isExpired now row = false →
      bc apiKey row.key_hash = true →
      db.subs.lookup row.subscription_id = some sub →
      (sub.status = .active ∨ sub.status = .trialing) →
      (validateKey bc false now db cache apiKey).1 = .ok row.id row.user_id sub.tier) ∧
    (∀ kid uid tr, (validateKey bc false now db cache apiKey).1 = .ok kid uid tr →
      strStartsWith apiKey "wa_" = true ∧ ∃ row sub,
        lookupActive db (strTake apiKey 12) = some row ∧ isExpired now row = false ∧
        bc apiKey row.key_hash = true ∧
        db.subs.lookup row.subscription_id = some sub ∧
        (sub.status = .active ∨ sub.status = .trialing) ∧
        kid = row.id ∧ uid = row.user_id ∧ tr = sub.tier) := by
  have hfmt : ∀ (hnsw : ¬ strStartsWith apiKey "wa_" = true),
      (validateKey bc false now db cache apiKey).1 = .err "Invalid API key format" := by
    intro hnsw
    unfold validateKey
    rw [if_pos (Or.inr hnsw)]
  have hwfOf : ∀ (hsw : strStartsWith apiKey "wa_" = true),
      ¬ (apiKey = "" ∨ ¬ strStartsWith apiKey "wa_" = true) := by
    intro hsw h
    exact h.elim (fun he => startsWith_wa_ne_empty hsw he) (fun hns => hns hsw)
  refine ⟨hfmt, ?_, ?_, ?_, ?_, ?_, ?_⟩
  · intro hsw hla
    rw [validateKey_not_cached_ok bc false now db cache apiKey (hwfOf hsw) hmiss, hla]
  · intro row hsw hlr hexp
    rw [validateKey_not_cached_ok bc false now db cache apiKey (hwfOf hsw) hmiss, hlr]
    simp [hexp]
  · intro row hsw hlr hexp hbc
    rw [validateKey_not_cached_ok bc false now db cache apiKey (hwfOf hsw) hmiss, hlr]
    simp [hexp, hbc]
  · intro row sub hsw hlr hexp hbc hsub hna hnt
    rw [validateKey_not_cached_ok bc false now db cache apiKey (hwfOf hsw) hmiss, hlr]
    simp only [hexp, Bool.false_eq_true, if_false]
    rw [if_neg (by simp [hbc]), hsub]
    dsimp only
    rw [if_pos ⟨hna, hnt⟩]
  · intro row sub hsw hlr hexp hbc hsub hstat
    rw [validateKey_not_cached_ok bc false now db cache apiKey (hwfOf hsw) hmiss, hlr]
    simp only [hexp, Bool.false_eq_true, if_false]
    rw [if_neg (by simp [hbc]), hsub]
    dsimp only
    rw [if_neg (show ¬ (sub.status ≠ .active ∧ sub.status ≠ .trialing) by
      rcases hstat with h | h <;> simp [h])]
  · intro kid uid tr hok
    by_cases hsw : strStartsWith apiKey "wa_" = true
    swap
    · rw [hfmt hsw] at hok
      cases hok
    refine ⟨hsw, ?_⟩
    rw [validateKey_not_cached_ok bc false now db cache apiKey (hwfOf hsw) hmiss] at hok
    cases hlr : lookupActive db (strTake apiKey 12) with
    | none => rw [hlr] at hok; cases hok
    | some row =>
        rw [hlr] at hok
        cases hexp : isExpired now row with
        | true => simp only [hexp, if_true] at hok; cases hok
        | false =>
            simp only [hexp, Bool.false_eq_true, if_false] at hok
            cases hbc : bc apiKey row.key_hash with
            | false => rw [if_pos (by simp [hbc])] at hok; cases hok
            | true =>
                rw [if_neg (by simp [hbc])] at hok
                cases hsub : db.subs.lookup row.subscription_id with
                | none => rw [hsub] at hok; cases hok
                | some sub =>
                    rw [hsub] at hok
                    dsimp only at hok
                    by_cases hstat : sub.status ≠ .active ∧ sub.status ≠ .trialing
                    · rw [if_pos hstat] at hok
                      cases hok
                    · rw [if_neg hstat] at hok
                      have hstat' : sub.status = .active ∨ sub.status = .trialing := by
                        rcases not_and_or.mp hstat with h | h
                        · exact Or.inl (not_not.mp h)
                        · exact Or.inr (not_not.mp h)
                      refine ⟨row, sub, rfl, hexp, hbc, hsub, hstat', ?_, ?_, ?_⟩ <;>
                        cases hok <;> rfl

/-- Witness for C3 on a one-key database whose stored hash matches the
presented credential and whose subscription is active. -/
theorem validateKey_classification_witness :
    (¬ strStartsWith "wa_test_aaaabbbb" "wa_" = true →
      (validateKey (fun p h => p == h) false 0
          ⟨[⟨"k1", "u1", "s1", "wa_test_aaaabbbb", "wa_test_aaaa", "Default", true, none,
             none⟩], [("s1", ⟨.active, .pro⟩)], 1⟩ [] "wa_test_aaaabbbb").1 =
        .err "Invalid API key format") ∧
    (strStartsWith "wa_test_aaaabbbb" "wa_" = true →
      lookupActive ⟨[⟨"k1", "u1", "s1", "wa_test_aaaabbbb", "wa_test_aaaa", "Default",
          true, none, none⟩], [("s1", ⟨.active, .pro⟩)], 1⟩
        (strTake "wa_test_aaaabbbb" 12) = none →
      (validateKey (fun p h => p == h) false 0
          ⟨[⟨"k1", "u1", "s1", "wa_test_aaaabbbb", "wa_test_aaaa", "Default", true, none,
             none⟩], [("s1", ⟨.active, .pro⟩)], 1⟩ [] "wa_test_aaaabbbb").1 =
        .err "API key not found") ∧
    (∀ row, strStartsWith "wa_test_aaaabbbb" "wa_" = true →
      lookupActive ⟨[⟨"k1", "u1", "s1", "wa_test_aaaabbbb", "wa_test_aaaa", "Default",
          true, none, none⟩], [("s1", ⟨.active, .pro⟩)], 1⟩
        (strTake "wa_test_aaaabbbb" 12) = some row →
      isExpired 0 row = true →
      (validateKey (fun p h => p == h) false 0
          ⟨[⟨"k1", "u1", "s1", "wa_test_aaaabbbb", "wa_test_aaaa", "Default", true, none,
             none⟩], [("s1", ⟨.active, .pro⟩)], 1⟩ [] "wa_test_aaaabbbb").1 =
        .err "API key expired") ∧
    (∀ row, strStartsWith "wa_test_aaaabbbb" "wa_" = true →
      lookupActive ⟨[⟨"k1", "u1", "s1", "wa_test_aaaabbbb", "wa_test_aaaa", "Default",
          true, none, none⟩], [("s1", ⟨.active, .pro⟩)], 1⟩
        (strTake "wa_test_aaaabbbb" 12) = some row →
      isExpired 0 row = false → ((fun p h => p == h) "wa_test_aaaabbbb" row.key_hash) = false →
      (validateKey (fun p h => p == h) false 0
          ⟨[⟨"k1", "u1", "s1", "wa_test_aaaabbbb", "wa_test_aaaa", "Default", true, none,
             none⟩], [("s1", ⟨.active, .pro⟩)], 1⟩ [] "wa_test_aaaabbbb").1 =
        .err "Invalid API key") ∧
    (∀ row sub, strStartsWith "wa_test_aaaabbbb" "wa_" = true →
      lookupActive ⟨[⟨"k1", "u1", "s1", "wa_test_aaaabbbb", "wa_test_aaaa", "Default",
          true, none, none⟩], [("s1", ⟨.active, .pro⟩)], 1⟩
        (strTake "wa_test_aaaabbbb" 12) = some row →
      isExpired 0 row = false → ((fun p h => p == h) "wa_test_aaaabbbb" row.key_hash) = true →
      (⟨[⟨"k1", "u1", "s1", "wa_test_aaaabbbb", "wa_test_aaaa", "Default", true, none,
          none⟩], [("s1", ⟨.active, .pro⟩)], 1⟩ : Db).subs.lookup row.subscription_id
        = some sub →
      sub.status ≠ .active → sub.status ≠ .trialing →
      (validateKey (fun p h => p == h) false 0
          ⟨[⟨"k1", "u1", "s1", "wa_test_aaaabbbb", "wa_test_aaaa", "Default", true, none,
             none⟩], [("s1", ⟨.active, .pro⟩)], 1⟩ [] "wa_test_aaaabbbb").1 =
        .err "Subscription inactive") ∧
    (∀ row sub, strStartsWith "wa_test_aaaabbbb" "wa_" = true →
      lookupActive ⟨[⟨"k1", "u1", "s1", "wa_test_aaaabbbb", "wa_test_aaaa", "Default",
          true, none, none⟩], [("s1", ⟨.active, .pro⟩)], 1⟩
        (strTake "wa_test_aaaabbbb" 12) = some row →
      isExpired 0 row = false → ((fun p h => p == h) "wa_test_aaaabbbb" row.key_hash) = true →
      (⟨[⟨"k1", "u1", "s1", "wa_test_aaaabbbb", "wa_test_aaaa", "Default", true, none,
          none⟩], [("s1", ⟨.active, .pro⟩)], 1⟩ : Db).subs.lookup row.subscription_id
        = some sub →
      (sub.status = .active ∨ sub.status = .trialing) →
      (validateKey (fun p h => p == h) false 0
          ⟨[⟨"k1", "u1", "s1", "wa_test_aaaabbbb", "wa_test_aaaa", "Default", true, none,
             none⟩], [("s1", ⟨.active, .pro⟩)], 1⟩ [] "wa_test_aaaabbbb").1 =
        .ok row.id row.user_id sub.tier) ∧
    (∀ kid uid tr,
      (validateKey (fun p h => p == h) false 0
          ⟨[⟨"k1", "u1", "s1", "wa_test_aaaabbbb", "wa_test_aaaa", "Default", true, none,
             none⟩], [("s1", ⟨.active, .pro⟩)], 1⟩ [] "wa_test_aaaabbbb").1 =
        .ok kid uid tr →
      strStartsWith "wa_test_aaaabbbb" "wa_" = true ∧ ∃ row sub,
        lookupActive ⟨[⟨"k1", "u1", "s1", "wa_test_aaaabbbb", "wa_test_aaaa", "Default",
            true, none, none⟩], [("s1", ⟨.active, .pro⟩)], 1⟩
          (strTake "wa_test_aaaabbbb" 12) = some row ∧
        isExpired 0 row = false ∧
        ((fun p h => p == h) "wa_test_aaaabbbb" row.key_hash) = true ∧
        (⟨[⟨"k1", "u1", "s1", "wa_test_aaaabbbb", "wa_test_aaaa", "Default", true, none,
            none⟩], [("s1", ⟨.active, .pro⟩)], 1⟩ : Db).subs.lookup row.subscription_id
          = some sub ∧
        (sub.status = .active ∨ sub.status = .trialing) ∧
        kid = row.id ∧ uid = row.user_id ∧ tr = sub.tier) :=
  validateKey_classification (fun p h => p == h) 0
    ⟨[⟨"k1", "u1", "s1", "wa_test_aaaabbbb", "wa_test_aaaa", "Default", true, none,
       none⟩], [("s1", ⟨.active, .pro⟩)], 1⟩ [] "wa_test_aaaabbbb"
    (fun kid uid tr h => by simp [cacheGet] at h)

/-- C3 counterexample to the claim as stated: a key with `expires_at = 50` is
validated at `t = 0` (correctly `valid:true`), which caches the result with a
5-minute TTL; at `t = 100` the key is expired (`isExpired = true`), yet a
second `validateKey` call served from that cache still returns `valid:true` —
so an expired key is not always refused. -/
theorem validateKey_stale_cache_validates_expired :
    (validateKey (fun p h => p == h) false 0
        ⟨[⟨"k1", "u1", "s1", "wa_test_aaaabbbb", "wa_test_aaaa", "Default", true,
           some 50, none⟩], [("s1", ⟨.active, .pro⟩)], 1⟩ []
        "wa_test_aaaabbbb").1 = .ok "k1" "u1" .pro ∧
    isExpired 100 ⟨"k1", "u1", "s1", "wa_test_aaaabbbb", "wa_test_aaaa", "Default",
      true, some 50, none⟩ = true ∧
    (validateKey (fun p h => p == h) false 100
        ⟨[⟨"k1", "u1", "s1", "wa_test_aaaabbbb", "wa_test_aaaa", "Default", true,
           some 50, none⟩], [("s1", ⟨.active, .pro⟩)], 1⟩
        (validateKey (fun p h => p == h) false 0
          ⟨[⟨"k1", "u1", "s1", "wa_test_aaaabbbb", "wa_test_aaaa", "Default", true,
             some 50, none⟩], [("s1", ⟨.active, .pro⟩)], 1⟩ []
          "wa_test_aaaabbbb").2.2.1
        "wa_test_aaaabbbb").1 = .ok "k1" "u1" .pro := by
  decide

/-! ## C10: only valid results are cached; failures reach the database -/

/-- Helper: every entry of `cacheSet` either carries the written value or was
already in the store. -/
theorem mem_cacheSet (down : Bool) (now : Int) (st : CacheState) (k : String) (v : CVal)
    (ttl : Nat) : ∀ e ∈ cacheSet down now st k v ttl, e.val = v ∨ e ∈ st := by
  unfold cacheSet
  by_cases hd : down = true
  · rw [if_pos hd]
    exact fun e he => Or.inr he
  · rw [if_neg hd]
    intro e he
    rcases List.mem_cons.mp he with he | he
    · subst he
      exact Or.inl rfl
    · exact Or.inr (List.mem_filter.mp he).1

/-- Helper: the cache written by one `validateKey` call is either untouched or
extended by exactly one freshly validated `valid:true` entry. -/
theorem validateKey_cache_out (bc : String → String → Bool) (down : Bool) (now : Int)
    (db : Db) (cache : CacheState) (apiKey : String) :
    (validateKey bc down now db cache apiKey).2.2.1 = cache ∨
    ∃ kid uid tr, (validateKey bc down now db cache apiKey).2.2.1 =
      cacheSet down now cache ("apikey:" ++ strTake apiKey 12)
        (.vres (.ok kid uid tr)) CACHE_TTL_API_KEY := by
  have hpath : ((match lookupActive db (strTake apiKey 12) with
      | none => ((.err "API key not found" : ApiKeyValidationResult), db, cache, true)
      | some row =>
        if isExpired now row then (.err "API key expired", db, cache, true)
        else if ¬ bc apiKey row.key_hash then (.err "Invalid API key", db, cache, true)
        else match db.subs.lookup row.subscription_id with
          | none => (.err "No subscription found", db, cache, true)
          | some sub =>
            if sub.status ≠ .active ∧ sub.status ≠ .trialing then
              (.err "Subscription inactive", db, cache, true)
            else
              (ApiKeyValidationResult.ok row.id row.user_id sub.tier,
               updateLastUsed db row.id now,
               cacheSet down now cache ("apikey:" ++ strTake apiKey 12)
                 (.vres (.ok row.id row.user_id sub.tier)) CACHE_TTL_API_KEY, true)) :
        ApiKeyValidationResult × Db × CacheState × Bool).2.2.1 = cache ∨
      ∃ kid uid tr, (match lookupActive db (strTake apiKey 12) with
      | none => ((.err "API key not found" : ApiKeyValidationResult), db, cache, true)
      | some row =>
        if isExpired now row then (.err "API key expired", db, cache, true)
        else if ¬ bc apiKey row.key_hash then (.err "Invalid API key", db, cache, true)
        else match db.subs.lookup row.subscription_id with
          | none => (.err "No subscription found", db, cache, true)
          | some sub =>
            if sub.status ≠ .active ∧ sub.status ≠ .trialing then
              (.err "Subscription inactive", db, cache, true)
            else
              (ApiKeyValidationResult.ok row.id row.user_id sub.tier,
               updateLastUsed db row.id now,
               cacheSet down now cache ("apikey:" ++ strTake apiKey 12)
                 (.vres (.ok row.id row.user_id sub.tier)) CACHE_TTL_API_KEY,
               true)).2.2.1 =
        cacheSet down now cache ("apikey:" ++ strTake apiKey 12)
          (.vres (.ok kid uid tr)) CACHE_TTL_API_KEY := by
    cases hlr : lookupActive db (strTake apiKey 12) with
    | none => exact Or.inl rfl
    | some row =>
        dsimp only
        by_cases hexp : isExpired now row = true
        · simp only [hexp, if_true]
          exact Or.inl trivial
        · rw [Bool.not_eq_true] at hexp
          simp only [hexp, Bool.false_eq_true, if_false]
          by_cases hbc : bc apiKey row.key_hash = true
          · rw [if_neg (not_not_intro hbc)]
            cases hsub : db.subs.lookup row.subscription_id with
            | none => exact Or.inl rfl
            | some sub =>
                dsimp only
                by_cases hstat : sub.status ≠ .active ∧ sub.status ≠ .trialing
                · rw [if_pos hstat]
                  exact Or.inl rfl
                · rw [if_neg hstat]
                  exact Or.inr ⟨row.id, row.user_id, sub.tier, rfl⟩
          · rw [if_pos hbc]
            exact Or.inl rfl
  by_cases hwf : apiKey = "" ∨ ¬ strStartsWith apiKey "wa_"
  · unfold validateKey
    rw [if_pos hwf]
    exact Or.inl rfl
  · by_cases hok : ∃ kid uid tr,
        cacheGet down now cache ("apikey:" ++ strTake apiKey 12) = .vres (.ok kid uid tr)
    · obtain ⟨kid, uid, tr, hv⟩ := hok
      unfold validateKey
      rw [if_neg hwf]
      dsimp only
      rw [hv]
      exact Or.inl rfl
    · push_neg at hok
      rw [validateKey_not_cached_ok bc down now db cache apiKey hwf hok]
      exact hpath

/-- Helper: every non-format failure of `validateKey` reaches the `api_keys`
select. -/
theorem validateKey_err_reaches_db (bc : String → String → Bool) (down : Bool)
    (now : Int) (db : Db) (cache : CacheState) (apiKey : String) (m : String)
    (h : (validateKey bc down now db cache apiKey).1 = .err m)
    (hm : m ≠ "Invalid API key format") :
    (validateKey bc down now db cache apiKey).2.2.2 = true := by
  by_cases hwf : apiKey = "" ∨ ¬ strStartsWith apiKey "wa_"
  · unfold validateKey at h
    rw [if_pos hwf] at h
    injection h with hh
    exact absurd hh.symm hm
  · by_cases hok : ∃ kid uid tr,
        cacheGet down now cache ("apikey:" ++ strTake apiKey 12) = .vres (.ok kid uid tr)
    · obtain ⟨kid, uid, tr, hv⟩ := hok
      unfold validateKey at h
      rw [if_neg hwf] at h
      dsimp only at h
      rw [hv] at h
      cases h
    · push_neg at hok
      rw [validateKey_not_cached_ok bc down now db cache apiKey hwf hok]
      cases hlr : lookupActive db (strTake apiKey 12) with
      | none => rfl
      | some row =>
          dsimp only
          by_cases hexp : isExpired now row = true
          · simp [hexp]
          · rw [Bool.not_eq_true] at hexp
            simp only [hexp, Bool.false_eq_true, if_false]
            by_cases hbc : bc apiKey row.key_hash = true
            · rw [if_neg (not_not_intro hbc)]
              cases hsub : db.subs.lookup row.subscription_id with
              | none => rfl
              | some sub =>
                  dsimp only
                  by_cases hstat : sub.status ≠ .active ∧ sub.status ≠ .trialing
                  · rw [if_pos hstat]
                  · rw [if_neg hstat]
            · rw [if_pos hbc]

/-- Helper: deleting a key makes a subsequent `cacheGet` of it miss. -/
theorem cacheGet_cacheDel (down : Bool) (now : Int) (cache : CacheState) (k : String) :
    cacheGet down now (cacheDel false cache k) k = .vnull := by
  unfold cacheGet cacheDel
  by_cases hd : down = true
  · rw [if_pos hd]
  · rw [if_neg hd, if_neg (by simp)]
    cases hf : List.find? (fun e => e.key == k && decide (now < e.expiresAt))
        (List.filter (fun e => !(e.key == k)) cache) with
    | none => rfl
    | some e =>
        have hp := List.find?_some hf
        have hmem := List.mem_of_find?_eq_some hf
        rw [Bool.and_eq_true] at hp
        have hnk := (List.mem_filter.mp hmem).2
        rw [hp.1] at hnk
        cases hnk

/-- Helper: a cached non-valid entry is ignored: the result, database effect
and database-lookup flag are those of a run without that entry. -/
theorem validateKey_ignores_cached_err (bc : String → String → Bool) (down : Bool)
    (now : Int) (db : Db) (cache : CacheState) (apiKey : String) (m : String)
    (hv : cacheGet down now cache ("apikey:" ++ strTake apiKey 12) = .vres (.err m)) :
    ((validateKey bc down now db cache apiKey).1,
     (validateKey bc down now db cache apiKey).2.1,
     (validateKey bc down now db cache apiKey).2.2.2) =
    ((validateKey bc down now db
        (cacheDel false cache ("apikey:" ++ strTake apiKey 12)) apiKey).1,
     (validateKey bc down now db
        (cacheDel false cache ("apikey:" ++ strTake apiKey 12)) apiKey).2.1,
     (validateKey bc down now db
        (cacheDel false cache ("apikey:" ++ strTake apiKey 12)) apiKey).2.2.2) := by
  by_cases hwf : apiKey = "" ∨ ¬ strStartsWith apiKey "wa_"
  · unfold validateKey
    rw [if_pos hwf, if_pos hwf]
  · have hcgL : ∀ kid uid tr,
        cacheGet down now cache ("apikey:" ++ strTake apiKey 12) ≠
          .vres (.ok kid uid tr) := by
      intro kid uid tr hcontra
      rw [hv] at hcontra
      simp at hcontra
    have hcgR : ∀ kid uid tr,
        cacheGet down now (cacheDel false cache ("apikey:" ++ strTake apiKey 12))
          ("apikey:" ++ strTake apiKey 12) ≠ .vres (.ok kid uid tr) := by
      intro kid uid tr hcontra
      rw [cacheGet_cacheDel] at hcontra
      cases hcontra
    rw [validateKey_not_cached_ok bc down now db cache apiKey hwf hcgL,
      validateKey_not_cached_ok bc down now db
        (cacheDel false cache ("apikey:" ++ strTake apiKey 12)) apiKey hwf hcgR]
    cases hlr : lookupActive db (strTake apiKey 12) with
    | none => rfl
    | some row =>
        dsimp only
        by_cases hexp : isExpired now row = true
        · simp [hexp]
        · rw [Bool.not_eq_true] at hexp
          simp only [hexp, Bool.false_eq_true, if_false]
          by_cases hbc : bc apiKey row.key_hash = true
          · rw [if_neg (not_not_intro hbc), if_neg (not_not_intro hbc)]
            cases hsub : db.subs.lookup row.subscription_id with
            | none => rfl
            | some sub =>
                dsimp only
                by_cases hstat : sub.status ≠ .active ∧ sub.status ≠ .trialing
                · rw [if_pos hstat, if_pos hstat]
                · rw [if_neg hstat, if_neg hstat]
          · rw [if_pos hbc, if_pos hbc]

/-- C10 (amended): `validateKey` writes only `valid:true` results to the
cache (an all-valid `apikey:`-prefixed cache stays all-valid across any
call); a cached entry that is not valid is ignored on read (the call behaves
as if the entry were absent); and every failing validation OTHER than the
structural format failure reaches the database lookup — a failure is never
served from the cache.  (The format failure returns before both the cache and
the database; see the counterexample.) -/
theorem validateKey_cache_discipline :
    (∀ (bc : String → String → Bool) (down : Bool) (now : Int) (db : Db)
        (cache : CacheState) (apiKey : String),
      (∀ e ∈ cache, strStartsWith e.key "apikey:" = true →
        ∃ kid uid tr, e.val = .vres (.ok kid uid tr)) →
      ∀ e ∈ (validateKey bc down now db cache apiKey).2.2.1,
        strStartsWith e.key "apikey:" = true →
        ∃ kid uid tr, e.val = .vres (.ok kid uid tr)) ∧
    (∀ (bc : String → String → Bool) (down : Bool) (now : Int) (db : Db)
        (cache : CacheState) (apiKey m : String),
      (validateKey bc down now db cache apiKey).1 = .err m →
      m ≠ "Invalid API key format" →
      (validateKey bc down now db cache apiKey).2.2.2 = true) ∧
    (∀ (bc : String → String → Bool) (down : Bool) (now : Int) (db : Db)
        (cache : CacheState) (apiKey m : String),
      cacheGet down now cache ("apikey:" ++ strTake apiKey 12) = .vres (.err m) →
      ((validateKey bc down now db cache apiKey).1,
       (validateKey bc down now db cache apiKey).2.1,
       (validateKey bc down now db cache apiKey).2.2.2) =
      ((validateKey bc down now db
          (cacheDel false cache ("apikey:" ++ strTake apiKey 12)) apiKey).1,
       (validateKey bc down now db
          (cacheDel false cache ("apikey:" ++ strTake apiKey 12)) apiKey).2.1,
       (validateKey bc down now db
          (cacheDel false cache ("apikey:" ++ strTake apiKey 12)) apiKey).2.2.2)) := by
  refine ⟨?_, validateKey_err_reaches_db, validateKey_ignores_cached_err⟩
  intro bc down now db cache apiKey hinv e he hsw
  rcases validateKey_cache_out bc down now db cache apiKey with hout | ⟨kid, uid, tr, hout⟩
  · rw [hout] at he
    exact hinv e he hsw
  · rw [hout] at he
    rcases mem_cacheSet _ _ _ _ _ _ e he with hval | hmem
    · exact ⟨kid, uid, tr, hval⟩
    · exact hinv e hmem hsw

/-- Witness for C10's amended theorem: an empty all-valid cache stays
all-valid across a validation; a concrete unknown-prefix failure carries
`dbQueried = true`; and a cached `valid:false` entry is ignored. -/
theorem validateKey_cache_discipline_witness :
    (∀ e ∈ (validateKey (fun p h => p == h) false 0 ⟨[], [], 0⟩ []
        "wa_test_aaaabbbb").2.2.1,
      strStartsWith e.key "apikey:" = true →
      ∃ kid uid tr, e.val = .vres (.ok kid uid tr)) ∧
    (validateKey (fun p h => p == h) false 0 ⟨[], [], 0⟩ []
      "wa_test_aaaabbbb").2.2.2 = true ∧
    ((validateKey (fun p h => p == h) false 0 ⟨[], [], 0⟩
        [⟨"apikey:wa_test_aaaa", .vres (.err "cached failure"), 100⟩]
        "wa_test_aaaabbbb").1,
     (validateKey (fun p h => p == h) false 0 ⟨[], [], 0⟩
        [⟨"apikey:wa_test_aaaa", .vres (.err "cached failure"), 100⟩]
        "wa_test_aaaabbbb").2.1,
     (validateKey (fun p h => p == h) false 0 ⟨[], [], 0⟩
        [⟨"apikey:wa_test_aaaa", .vres (.err "cached failure"), 100⟩]
        "wa_test_aaaabbbb").2.2.2) =
    ((validateKey (fun p h => p == h) false 0 ⟨[], [], 0⟩
        (cacheDel false [⟨"apikey:wa_test_aaaa", .vres (.err "cached failure"), 100⟩]
          ("apikey:" ++ strTake "wa_test_aaaabbbb" 12)) "wa_test_aaaabbbb").1,
     (validateKey (fun p h => p == h) false 0 ⟨[], [], 0⟩
        (cacheDel false [⟨"apikey:wa_test_aaaa", .vres (.err "cached failure"), 100⟩]
          ("apikey:" ++ strTake "wa_test_aaaabbbb" 12)) "wa_test_aaaabbbb").2.1,
     (validateKey (fun p h => p == h) false 0 ⟨[], [], 0⟩
        (cacheDel false [⟨"apikey:wa_test_aaaa", .vres (.err "cached failure"), 100⟩]
          ("apikey:" ++ strTake "wa_test_aaaabbbb" 12)) "wa_test_aaaabbbb").2.2.2) :=
  ⟨validateKey_cache_discipline.1 (fun p h => p == h) false 0 ⟨[], [], 0⟩ []
      "wa_test_aaaabbbb" (fun e he => absurd he (List.not_mem_nil e)),
   validateKey_cache_discipline.2.1 (fun p h => p == h) false 0 ⟨[], [], 0⟩ []
      "wa_test_aaaabbbb" "API key not found" (by decide) (by decide),
   validateKey_cache_discipline.2.2 (fun p h => p == h) false 0 ⟨[], [], 0⟩
      [⟨"apikey:wa_test_aaaa", .vres (.err "cached failure"), 100⟩]
      "wa_test_aaaabbbb" "cached failure" (by decide)⟩

/-- C10 counterexample to the claim as stated: a structurally malformed
credential fails with the format error WITHOUT reaching the database lookup
(`dbQueried = false`), so not every failing validation reaches the database. -/
theorem validateKey_format_failure_skips_db :
    (validateKey (fun _ _ => false) false 0 ⟨[], [], 0⟩ [] "xyz").1 =
      .err "Invalid API key format" ∧
    (validateKey (fun _ _ => false) false 0 ⟨[], [], 0⟩ [] "xyz").2.2.2 = false := by
  decide
